import Mathlib

/-!
Verification development for the `zod-mock-schema` repository.

The embedding follows `src/unnamed/part_002` (the current implementation of
the `ZodMockSchema` class) together with `src/src/constants.ts`.  External
collaborators (the Faker random source, the RandExp pattern generator and the
Zod `parse` entry point) are modelled from the contracts stated in the spec
(sections 6 and 8): they are out of scope of the repository and only their
interface behaviour matters here.
-/

/-- The seedable random source.  Models one Faker instance's internal PRNG
state: every draw is a pure function of the state, which is exactly the
determinism contract the spec assigns to the external random library. -/
structure Rng where
  state : Nat
deriving Repr, DecidableEq

/-- One draw from the random source: a linear congruential step.  The concrete
mixing function is irrelevant to every claim; what matters is that draws are a
pure function of the state. -/
def rngNext (r : Rng) : Nat × Rng :=
  let s := (r.state * 1664525 + 1013904223) % 4294967296
  (s, ⟨s⟩)

/-- Models `faker.seed(seedArray)`: the resulting PRNG state is a pure function
of the seed list alone (it fully overwrites the previous state). -/
def fakerSeed (seedArray : List Int) : Rng :=
  ⟨(seedArray.foldl (fun acc i => acc * 31 + i.natAbs) 17) % 4294967296⟩

/-- Models `faker.number.int({min, max})` on naturals: a uniform draw in
`[lo, hi]`.  The real sampler throws on an inverted range; the model is total
and its value on `hi < lo` is never relied upon. -/
def natInRange (r : Rng) (lo hi : Nat) : Nat × Rng :=
  let (n, r1) := rngNext r
  if lo ≤ hi then (lo + n % (hi + 1 - lo), r1) else (lo, r1)

/-- Models `faker.number.int({min, max})` on rational bounds: returns an
integer of the range.  The generator only reaches this sampler with integral
bounds; the real sampler throws on an inverted range. -/
def fakerNumberInt (r : Rng) (mn mx : ℚ) : ℚ × Rng :=
  let (n, r1) := rngNext r
  let lo : ℤ := ⌈mn⌉
  let hi : ℤ := ⌊mx⌋
  if lo ≤ hi then (((lo + (n : ℤ) % (hi - lo + 1) : ℤ) : ℚ), r1) else (mn, r1)

/-- Models `faker.number.float({min, max})`: a draw in `[mn, mx]`. -/
def fakerNumberFloat (r : Rng) (mn mx : ℚ) : ℚ × Rng :=
  let (n, r1) := rngNext r
  if mn ≤ mx then (mn + (((n % 1001 : ℕ) : ℚ) / 1000) * (mx - mn), r1) else (mn, r1)

/-- Models `faker.datatype.boolean()`. -/
def fakerBoolean (r : Rng) : Bool × Rng :=
  let (n, r1) := rngNext r
  (n % 2 == 1, r1)

/-- Models `faker.string.alpha({length})`: an alphabetic string of exactly the
requested length. -/
def fakerStringAlpha (len : Nat) (r : Rng) : String × Rng :=
  let (n, r1) := rngNext r
  (String.mk (List.replicate len (Char.ofNat (97 + n % 26))), r1)

/-- Models `faker.internet.email()` (spec section 6: an email-like sample). -/
def fakerInternetEmail (r : Rng) : String × Rng :=
  let (n, r1) := rngNext r
  ("user" ++ toString (n % 1000) ++ "@example.com", r1)

/-- Models `faker.internet.url()`. -/
def fakerInternetUrl (r : Rng) : String × Rng :=
  let (n, r1) := rngNext r
  ("https://site" ++ toString (n % 1000) ++ ".example.com", r1)

/-- Models `faker.string.uuid()`. -/
def fakerStringUuid (r : Rng) : String × Rng :=
  let (n, r1) := rngNext r
  ("00000000-0000-4000-8000-" ++ toString (n % 1000000), r1)

/-- Models `faker.string.ulid()`. -/
def fakerStringUlid (r : Rng) : String × Rng :=
  let (n, r1) := rngNext r
  ("01ARZ3NDEKTSV4RRFFQ69G" ++ toString (n % 1000), r1)

/-- Models `faker.date.recent().toISOString()` as used by the date-time string
format branch. -/
def fakerRecentIso (r : Rng) : String × Rng :=
  let (n, r1) := rngNext r
  ("2026-10-" ++ toString (n % 28 + 1) ++ "T00:00:00.000Z", r1)

/-- Modelled from the spec: the external fixed-pattern generator (RandExp)
produces a string matching the given regular expression, optionally capped.
The pattern-to-string production itself is external to this repository and is
not modelled structurally. -/
def randexpGen (pat : Option String) (cap : Option Nat) (r : Rng) : String × Rng :=
  let (_, r1) := rngNext r
  match cap with
  | some _ => (pat.getD "", r1)
  | none => (pat.getD "", r1)

/-! Mirror of `src/src/constants.ts` (the constants the embedded fragment
uses). -/

namespace Constants

def DEFAULT_SET_MIN_SIZE : Nat := 1

def DEFAULT_SET_MAX_SIZE : Nat := 5

def DEFAULT_ARRAY_MIN_LENGTH : Nat := 1

def DEFAULT_ARRAY_MAX_LENGTH : Nat := 1

def DEFAULT_INT_MIN : ℚ := 1

def DEFAULT_INT_MAX : ℚ := 1000

def DEFAULT_FLOAT_MIN : ℚ := 0

def DEFAULT_FLOAT_MAX : ℚ := 100

def DEFAULT_STRING_MIN_LENGTH : Nat := 5

def DEFAULT_STRING_MAX_LENGTH : Nat := 20

def FORMAT_EMAIL : String := "email"

def FORMAT_REGEX : String := "regex"

def FORMAT_URL : String := "url"

def FORMAT_UUID : String := "uuid"

def FORMAT_ULID : String := "ulid"

def FLOAT_FORMATS : List String := ["float", "double", "decimal", "float32", "float64"]

def BRAZILIAN_CPF : List String :=
  ["12345678909", "52998224725", "11144477735", "86473782905", "40723177808"]

end Constants

/-- A JavaScript numeric bound as exposed by the Zod `minValue`/`maxValue`
accessors: a finite number or one of the two infinities.  (`NaN` bounds are
not produced by the schema library and are not modelled.) -/
inductive JNum where
  | fin (q : ℚ)
  | pinf
  | ninf
deriving Repr, DecidableEq

/-- `Number.isInteger(v)` for a possibly-null bound: `false` on `null` and on
both infinities, and true exactly on finite integral values.  This models the
JS behaviour used at `part_002` line 351. -/
def jsNumberIsInteger (v : Option JNum) : Bool :=
  match v with
  | some (JNum.fin q) => q.den == 1
  | _ => false

/-- A primitive (by-value) JavaScript datum, the payload of a Zod literal. -/
inductive Prim where
  | pstr (s : String)
  | pnum (q : ℚ)
  | pbool (b : Bool)
  | pnull
  | pundefined
deriving Repr, DecidableEq

/-- The values the generator produces (`MockValue` in `src/src/types.ts`). -/
inductive MockValue where
  | vstr (s : String)
  | vnum (q : ℚ)
  | vnan
  | vbool (b : Bool)
  | vnull
  | vundefined
  | varr (xs : List MockValue)
  | vobj (fields : List (String × MockValue))
  | vset (xs : List MockValue)
  | vdate (t : Int)
  | vmap (entries : List (MockValue × MockValue))
deriving Repr

def Prim.toMockValue : Prim → MockValue
  | .pstr s => .vstr s
  | .pnum q => .vnum q
  | .pbool b => .vbool b
  | .pnull => .vnull
  | .pundefined => .vundefined

/-- JavaScript SameValueZero on primitives; composite values (objects, arrays,
dates, sets, maps) compare by reference, and every composite the generator
produces is freshly allocated, so they never compare equal — hence the
catch-all `false`. -/
def MockValue.primEq : MockValue → MockValue → Bool
  | .vstr a, .vstr b => a == b
  | .vnum a, .vnum b => a == b
  | .vnan, .vnan => true
  | .vbool a, .vbool b => a == b
  | .vnull, .vnull => true
  | .vundefined, .vundefined => true
  | _, _ => false

/-- `Set.prototype.add`: insert unless an equal (SameValueZero) element is
already present; models the JS `Set` the set branch builds. -/
def jsSetAdd (items : List MockValue) (v : MockValue) : List MockValue :=
  if items.any (fun w => MockValue.primEq w v) then items else items ++ [v]

/-- Mirror of `isPlainObject` (`part_002` lines 403-411): `typeof v` is
`object`, and `v` is not `null`, not an array, not a `Date`, not a `Set` and
not a `Map`. -/
def isPlainObject (v : MockValue) : Bool :=
  match v with
  | .vobj _ => true
  | _ => false

/-- JavaScript object spread `{...a, ...b}` on two plain objects: keys of `a`
in order, values replaced by `b` where `b` has the key, followed by the keys
of `b` not present in `a`, in order. -/
def jsMergeFields (a b : List (String × MockValue)) : List (String × MockValue) :=
  (a.map (fun p => (p.1, (b.lookup p.1).getD p.2))) ++
    b.filter (fun p => (a.lookup p.1).isNone)

/-- Object spread on arbitrary values, guarded in `generate` by
`isPlainObject` on both sides, so the non-object arm is unreachable there. -/
def jsSpreadMerge (a b : MockValue) : MockValue :=
  match a, b with
  | .vobj fa, .vobj fb => .vobj (jsMergeFields fa fb)
  | _, _ => b

/-- The fragment of the Zod schema node language the claims are about.  Each
constructor carries exactly the data the corresponding `generateFromSchema`
branch of `part_002` reads: the public `minLength`/`maxLength`/`format`
accessors for strings (plus the regex check's pattern), the public
`minValue`/`maxValue`/`format` accessors for numbers, the
`min_length`/`max_length` checks for arrays, the `min_size`/`max_size` checks
for sets, the shape for objects and the literal payload for literals.
`withMeta` models a node carrying a `.meta({format})` tag (the dispatcher's
first branch) and `unsupported` a node whose kind matches none of the
dispatcher's `instanceof` tests, reaching the final fallback. -/
inductive Schema where
  | withMeta (format : String) (inner : Schema)
  | str (minLength maxLength : Option Nat) (format : Option String) (pat : Option String)
  | num (minValue maxValue : Option JNum) (format : Option String)
  | bool
  | lit (p : Prim)
  | arr (minLength maxLength : Option Nat) (elem : Schema)
  | obj (shape : List (String × Schema))
  | set (minSize maxSize : Option Nat) (elem : Schema)
  | unsupported (typeName : String)
deriving Repr

/-- The normalized `{min, max}` pair returned by `getNormalizedBounds`. -/
structure NormalizedBounds where
  min : ℚ
  max : ℚ
deriving Repr, DecidableEq

/-- Mirror of `getNormalizedBounds` (`part_002` lines 371-387): substitute a
default for a `null` or infinite bound (float defaults when `isFloat`,
integer defaults otherwise), then swap the pair when the resulting min
exceeds the resulting max. -/
def getNormalizedBounds (minValue maxValue : Option JNum) (isFloat : Bool) : NormalizedBounds :=
  let defaultMin := if isFloat then Constants.DEFAULT_FLOAT_MIN else Constants.DEFAULT_INT_MIN
  let defaultMax := if isFloat then Constants.DEFAULT_FLOAT_MAX else Constants.DEFAULT_INT_MAX
  let getBound : Option JNum → ℚ → ℚ := fun value defaultValue =>
    match value with
    | none => defaultValue
    | some JNum.pinf => defaultValue
    | some JNum.ninf => defaultValue
    | some (JNum.fin q) => q
  let minBound := getBound minValue defaultMin
  let maxBound := getBound maxValue defaultMax
  if minBound > maxBound then ⟨maxBound, minBound⟩ else ⟨minBound, maxBound⟩

/-- Mirror of the float-intent detection in `generateNumberValue` (`part_002`
lines 348-353): decimal bounds are detected with `Number.isInteger`, which is
false on `null` and on infinities as well as on genuinely fractional
values. -/
def numberIsFloatIntent (minValue maxValue : Option JNum) (format : Option String) : Bool :=
  let hasDecimalBounds := [minValue, maxValue].any (fun v => !jsNumberIsInteger v)
  let hasFloatFormat :=
    match format with
    | some f => Constants.FLOAT_FORMATS.contains f
    | none => false
  hasFloatFormat || hasDecimalBounds

/-- Mirror of `generateNumberValue` (`part_002` lines 348-361). -/
def generateNumberValue (minValue maxValue : Option JNum) (format : Option String)
    (r : Rng) : ℚ × Rng :=
  let isFloat := numberIsFloatIntent minValue maxValue format
  let b := getNormalizedBounds minValue maxValue isFloat
  if isFloat then fakerNumberFloat r b.min b.max else fakerNumberInt r b.min b.max

/-- Mirror of `generateStringValue` (`part_002` lines 309-346): dedicated
generators for the email/url/uuid/ulid formats, the RandExp path for regex
(capped at `maxLength` when present), an ISO timestamp for the two date-time
formats, and otherwise an alphabetic string whose length is drawn uniformly
between the declared bounds (defaults 5/20). -/
def generateStringValue (minLength maxLength : Option Nat) (format : Option String)
    (pat : Option String) (r : Rng) : String × Rng :=
  let defaultBranch : Rng → String × Rng := fun r0 =>
    let minStringLength := minLength.getD Constants.DEFAULT_STRING_MIN_LENGTH
    let maxStringLength := maxLength.getD Constants.DEFAULT_STRING_MAX_LENGTH
    let (stringLength, r1) := natInRange r0 minStringLength maxStringLength
    fakerStringAlpha stringLength r1
  match format with
  | none => defaultBranch r
  | some f =>
    if f = Constants.FORMAT_EMAIL then fakerInternetEmail r
    else if f = Constants.FORMAT_URL then fakerInternetUrl r
    else if f = Constants.FORMAT_UUID then fakerStringUuid r
    else if f = Constants.FORMAT_ULID then fakerStringUlid r
    else if f = Constants.FORMAT_REGEX then randexpGen pat maxLength r
    else if f = "date-time" ∨ f = "datetime" then fakerRecentIso r
    else defaultBranch r

mutual

/-- Mirror of the `generateFromSchema` dispatcher (`part_002` lines 52-307)
restricted to the node kinds the claims exercise.  The final `unsupported`
case is the dispatcher's fallthrough `return null` at line 306. -/
def generateFromSchema : Schema → Rng → MockValue × Rng
  | Schema.withMeta format inner, r =>
    if format = "cpf" then
      let (n, r1) := rngNext r
      (MockValue.vstr (Constants.BRAZILIAN_CPF.getD (n % Constants.BRAZILIAN_CPF.length) ""), r1)
    else generateFromSchema inner r
  | Schema.str mn mx fmt pat, r =>
    let (s, r1) := generateStringValue mn mx fmt pat r
    (MockValue.vstr s, r1)
  | Schema.num mn mx fmt, r =>
    let (q, r1) := generateNumberValue mn mx fmt r
    (MockValue.vnum q, r1)
  | Schema.bool, r =>
    let (b, r1) := fakerBoolean r
    (MockValue.vbool b, r1)
  | Schema.lit p, r => (p.toMockValue, r)
  | Schema.arr mn mx elem, r =>
    let minLength := mn.getD Constants.DEFAULT_ARRAY_MIN_LENGTH
    let maxLength := mx.getD Constants.DEFAULT_ARRAY_MAX_LENGTH
    let (arrayLength, r1) := natInRange r minLength maxLength
    let (xs, r2) := generateElements elem arrayLength r1
    (MockValue.varr xs, r2)
  | Schema.obj shape, r =>
    let (fs, r1) := generateShape shape r
    (MockValue.vobj fs, r1)
  | Schema.set mn mx elem, r =>
    let minSetSize := mn.getD Constants.DEFAULT_SET_MIN_SIZE
    let maxSetSize := mx.getD Constants.DEFAULT_SET_MAX_SIZE
    let (targetSize, r1) := natInRange r minSetSize maxSetSize
    let (items, r2) := generateSetItems elem (targetSize * 3) targetSize [] r1
    (MockValue.vset items, r2)
  | Schema.unsupported _, r => (MockValue.vnull, r)
termination_by s _ => (sizeOf s, 0, 0)

/-- The object branch's `Object.entries(...).map` loop: generate every field
of the shape in declaration order, threading the random source. -/
def generateShape : List (String × Schema) → Rng → List (String × MockValue) × Rng
  | [], r => ([], r)
  | (key, s) :: rest, r =>
    let (v, r1) := generateFromSchema s r
    let (vs, r2) := generateShape rest r1
    ((key, v) :: vs, r2)
termination_by shape _ => (sizeOf shape, 0, 0)

/-- The array branch's `Array.from({length}, () => ...)`: a run of
independently generated elements. -/
def generateElements : Schema → Nat → Rng → List MockValue × Rng
  | _, 0, r => ([], r)
  | s, n + 1, r =>
    let (v, r1) := generateFromSchema s r
    let (vs, r2) := generateElements s n r1
    (v :: vs, r2)
termination_by s n _ => (sizeOf s, 1, n)

/-- The set branch's bounded insertion loop (`part_002` lines 208-211):
`for (let i = 0; i < targetSize * 3; i++) { items.add(...); if (items.size >=
targetSize) break; }` — `fuel` is the remaining iteration budget, initially
`targetSize * 3`. -/
def generateSetItems : Schema → Nat → Nat → List MockValue → Rng → List MockValue × Rng
  | _, 0, _, items, r => (items, r)
  | s, fuel + 1, targetSize, items, r =>
    let (v, r1) := generateFromSchema s r
    let items1 := jsSetAdd items v
    if targetSize ≤ items1.length then (items1, r1)
    else generateSetItems s fuel targetSize items1 r1
termination_by s fuel _ _ _ => (sizeOf s, 1, fuel)

end

/-- Comparison of a lower bound against a value: `b <= q` in JS terms. -/
def JNum.leQ : JNum → ℚ → Bool
  | JNum.fin m, q => decide (m ≤ q)
  | JNum.ninf, _ => true
  | JNum.pinf, _ => false

/-- Comparison of a value against an upper bound: `q <= b` in JS terms. -/
def JNum.geQ : JNum → ℚ → Bool
  | JNum.fin m, q => decide (q ≤ m)
  | JNum.ninf, _ => false
  | JNum.pinf, _ => true

/-- The integer-family format tags of the schema library. -/
def INT_FORMATS : List String :=
  ["int", "integer", "int32", "int64", "uint", "uint32", "uint64", "safeint", "safeinteger"]

mutual

/-- Modelled from the spec: the external schema library's validation of one
candidate value against one node (`validate(schema, value) -> value |
ValidationError`, spec sections 1 and 6).  Declared structural and bound
constraints are checked; the syntactic details of string formats are internal
to the external library and are not modelled (the sound fragment used by the
theorems below excludes format-tagged strings). -/
def zodValidate : Schema → MockValue → Bool
  | Schema.withMeta _ inner, v => zodValidate inner v
  | Schema.str mn mx _ _, MockValue.vstr s =>
    (match mn with | some m => decide (m ≤ s.length) | none => true) &&
    (match mx with | some m => decide (s.length ≤ m) | none => true)
  | Schema.str _ _ _ _, _ => false
  | Schema.num mn mx fmt, MockValue.vnum q =>
    (match mn with | some b => JNum.leQ b q | none => true) &&
    (match mx with | some b => JNum.geQ b q | none => true) &&
    (if INT_FORMATS.contains (fmt.getD "") then q.den == 1 else true)
  | Schema.num _ _ _, _ => false
  | Schema.bool, MockValue.vbool _ => true
  | Schema.bool, _ => false
  | Schema.lit p, v => MockValue.primEq v p.toMockValue
  | Schema.arr mn mx elem, MockValue.varr xs =>
    (match mn with | some m => decide (m ≤ xs.length) | none => true) &&
    (match mx with | some m => decide (xs.length ≤ m) | none => true) &&
    zodValidateElems elem xs
  | Schema.arr _ _ _, _ => false
  | Schema.obj shape, MockValue.vobj fields => zodValidateShape shape fields
  | Schema.obj _, _ => false
  | Schema.set mn mx elem, MockValue.vset xs =>
    (match mn with | some m => decide (m ≤ xs.length) | none => true) &&
    (match mx with | some m => decide (xs.length ≤ m) | none => true) &&
    zodValidateElems elem xs
  | Schema.set _ _ _, _ => false
  | Schema.unsupported _, _ => false
termination_by s _ => (sizeOf s, 0)

/-- Validation of every element of a collection against the element node. -/
def zodValidateElems : Schema → List MockValue → Bool
  | _, [] => true
  | s, v :: vs => zodValidate s v && zodValidateElems s vs
termination_by s vs => (sizeOf s, 1 + sizeOf vs)

/-- Validation of an object candidate against a shape: every declared field
must be present and valid (extra keys are ignored, as the external library
strips them). -/
def zodValidateShape : List (String × Schema) → List (String × MockValue) → Bool
  | [], _ => true
  | (key, s) :: rest, fields =>
    (match fields.lookup key with
     | some v => zodValidate s v
     | none => false) &&
    zodValidateShape rest fields
termination_by shape _ => (sizeOf shape, 0)

end

/-- Modelled from the spec: the external `parse` entry point — return the
candidate when it satisfies the schema, throw a validation error otherwise
(spec sections 4.3 and 6). -/
def zodParse (s : Schema) (v : MockValue) : Except String MockValue :=
  if zodValidate s v then Except.ok v else Except.error "ZodError"

/-- The per-call options object (`MockOptions` in `src/src/types.ts`).  The
`overrides` field distinguishes a missing key (`none`) from a key present
with any value including `undefined` (`some v`), because
`hasCustomOverrides` tests key presence with the `in` operator.  The `faker`
field carries a reference to an injected Faker instance. -/
structure MockOptions where
  overrides : Option MockValue := none
  faker : Option Nat := none

/-- Mirror of `hasCustomOverrides` (`part_002` lines 413-415):
`!!overrides && 'overrides' in overrides`. -/
def hasCustomOverrides (overrides : Option MockOptions) : Bool :=
  match overrides with
  | some o => o.overrides.isSome
  | none => false

/-- The `ZodMockSchema` instance state: the bound schema (a `readonly`
constructor field) and the `faker` property, modelled as a reference into a
store of Faker instances so that reference restoration and in-place PRNG
advancement can both be expressed. -/
structure ZodMockInstance where
  schema : Schema
  fakerRef : Nat
deriving Repr

/-- The heap of live Faker instances, addressed by reference. -/
def FakerStore : Type := Nat → Rng

/-- Write one Faker instance's PRNG state back into the store. -/
def storeWrite (store : FakerStore) (ref : Nat) (r : Rng) : FakerStore :=
  fun ref1 => if ref1 = ref then r else store ref1

/-- Mirror of `seed` (`part_002` lines 14-18): wrap a single integer into a
one-element array, forward it to `faker.seed`, and return the instance
itself. -/
def seed (inst : ZodMockInstance) (store : FakerStore) (sv : Int ⊕ List Int) :
    ZodMockInstance × FakerStore :=
  let seedArray := match sv with
    | Sum.inl n => [n]
    | Sum.inr l => l
  (inst, storeWrite store inst.fakerRef (fakerSeed seedArray))

/-- Mirror of `generate` (`part_002` lines 20-43).  The `try` block swaps
`this.faker` to the injected instance when present, generates the draft,
dispatches on the overrides key and parses; the `finally` block restores
`this.faker` to the reference captured before the call, on the error path as
well (errors are the `Except.error` results of `zodParse`).  The returned
triple is (parse result, instance after the call, store after the call). -/
def generate (inst : ZodMockInstance) (store : FakerStore) (overrides : Option MockOptions) :
    Except String MockValue × ZodMockInstance × FakerStore :=
  let originalFaker := inst.fakerRef
  let activeFaker := match overrides with
    | some o => match o.faker with
      | some f => f
      | none => inst.fakerRef
    | none => inst.fakerRef
  let genResult := generateFromSchema inst.schema (store activeFaker)
  let mockData := genResult.1
  let store1 := storeWrite store activeFaker genResult.2
  let result :=
    if !(hasCustomOverrides overrides) then zodParse inst.schema mockData
    else
      let ov := ((overrides.getD {}).overrides).getD MockValue.vundefined
      if isPlainObject ov && isPlainObject mockData then
        zodParse inst.schema (jsSpreadMerge mockData ov)
      else zodParse inst.schema ov
  (result, { schema := inst.schema, fakerRef := originalFaker }, store1)

/-- Follows the spec's words (section 4.2) for bound substitution: "treat
±infinity or absent bounds as default-range sentinels". -/
def specSubstituteBound (value : Option JNum) (defaultValue : ℚ) : ℚ :=
  match value with
  | none => defaultValue
  | some JNum.pinf => defaultValue
  | some JNum.ninf => defaultValue
  | some (JNum.fin q) => q

/-- Follows the claim's words for C4: a numeric bound that is declared,
finite and integral — the only bounds that do not trigger decimal intent. -/
def presentFiniteIntegerBound : Option JNum → Bool
  | some (JNum.fin q) => q.den == 1
  | _ => false

/-- The fragment of node kinds for which generation provably yields a value
accepted by validation: booleans, literals, format-free strings and numbers
with coherent bounds, and arrays of such.  Sets are excluded because their
generated cardinality can undershoot a declared minimum, and format-tagged
strings are excluded because the format generators ignore length bounds. -/
def SoundSchema : Schema → Bool
  | Schema.bool => true
  | Schema.lit _ => true
  | Schema.str mn mx fmt _ =>
    fmt.isNone &&
    decide (mn.getD Constants.DEFAULT_STRING_MIN_LENGTH ≤ mx.getD Constants.DEFAULT_STRING_MAX_LENGTH)
  | Schema.num mn mx fmt =>
    fmt.isNone &&
    (match mn, mx with
     | none, none => true
     | some (JNum.fin a), some (JNum.fin b) => decide (a ≤ b)
     | _, _ => false)
  | Schema.arr mn mx elem =>
    decide (mn.getD Constants.DEFAULT_ARRAY_MIN_LENGTH ≤ mx.getD Constants.DEFAULT_ARRAY_MAX_LENGTH) &&
    SoundSchema elem
  | _ => false

/-- One override entry is acceptable when its key is a declared field of the
shape and its value validates against that field's node. -/
def overrideEntryOk (shape : List (String × Schema)) (p : String × MockValue) : Bool :=
  match shape.lookup p.1 with
  | some s => zodValidate s p.2
  | none => false

/-! Auxiliary lemmas about the modelled samplers and list operations. -/

lemma natInRange_mem (r : Rng) (lo hi : Nat) (h : lo ≤ hi) :
    lo ≤ (natInRange r lo hi).1 ∧ (natInRange r lo hi).1 ≤ hi := by
  unfold natInRange
  simp only [h, if_pos]
  constructor
  · omega
  · have hlt : (rngNext r).1 % (hi + 1 - lo) < hi + 1 - lo := Nat.mod_lt _ (by omega)
    omega

lemma fakerNumberFloat_mem (r : Rng) (mn mx : ℚ) (h : mn ≤ mx) :
    mn ≤ (fakerNumberFloat r mn mx).1 ∧ (fakerNumberFloat r mn mx).1 ≤ mx := by
  unfold fakerNumberFloat
  simp only [h, if_pos]
  have h0 : (0 : ℚ) ≤ (((rngNext r).1 % 1001 : ℕ) : ℚ) / 1000 := by positivity
  have h1 : (((rngNext r).1 % 1001 : ℕ) : ℚ) / 1000 ≤ 1 := by
    have : ((rngNext r).1 % 1001 : ℕ) ≤ 1000 := by
      have := Nat.mod_lt (rngNext r).1 (y := 1001) (by omega)
      omega
    have hc : (((rngNext r).1 % 1001 : ℕ) : ℚ) ≤ 1000 := by exact_mod_cast this
    linarith
  constructor
  · nlinarith
  · nlinarith

lemma fakerNumberInt_mem (r : Rng) (mn mx : ℚ) (h : mn ≤ mx) :
    mn ≤ (fakerNumberInt r mn mx).1 ∧ (fakerNumberInt r mn mx).1 ≤ mx := by
  unfold fakerNumberInt
  by_cases hlh : (⌈mn⌉ : ℤ) ≤ ⌊mx⌋
  · simp only [hlh, if_pos]
    have hb : (0 : ℤ) < ⌊mx⌋ - ⌈mn⌉ + 1 := by omega
    have h0 : 0 ≤ ((rngNext r).1 : ℤ) % (⌊mx⌋ - ⌈mn⌉ + 1) := Int.emod_nonneg _ (by omega)
    have h1 : ((rngNext r).1 : ℤ) % (⌊mx⌋ - ⌈mn⌉ + 1) < ⌊mx⌋ - ⌈mn⌉ + 1 :=
      Int.emod_lt_of_pos _ hb
    constructor
    · have hceil : mn ≤ (⌈mn⌉ : ℚ) := Int.le_ceil mn
      have : (⌈mn⌉ : ℚ) ≤ ((⌈mn⌉ + ((rngNext r).1 : ℤ) % (⌊mx⌋ - ⌈mn⌉ + 1) : ℤ) : ℚ) := by
        exact_mod_cast (by omega : (⌈mn⌉ : ℤ) ≤ ⌈mn⌉ + ((rngNext r).1 : ℤ) % (⌊mx⌋ - ⌈mn⌉ + 1))
      linarith
    · have hfloor : ((⌊mx⌋ : ℤ) : ℚ) ≤ mx := Int.floor_le mx
      have : ((⌈mn⌉ + ((rngNext r).1 : ℤ) % (⌊mx⌋ - ⌈mn⌉ + 1) : ℤ) : ℚ) ≤ ((⌊mx⌋ : ℤ) : ℚ) := by
        exact_mod_cast (by omega : (⌈mn⌉ : ℤ) + ((rngNext r).1 : ℤ) % (⌊mx⌋ - ⌈mn⌉ + 1) ≤ ⌊mx⌋)
      linarith
  · simp only [hlh, if_neg, if_false]
    exact ⟨le_refl mn, h⟩

lemma fakerStringAlpha_length (len : Nat) (r : Rng) :
    (fakerStringAlpha len r).1.length = len := by
  unfold fakerStringAlpha
  simp [String.length]

lemma jsSetAdd_length_le (items : List MockValue) (v : MockValue) :
    (jsSetAdd items v).length ≤ items.length + 1 := by
  unfold jsSetAdd
  split <;> simp

lemma generateElements_length (s : Schema) (n : Nat) (r : Rng) :
    (generateElements s n r).1.length = n := by
  induction n generalizing r with
  | zero => simp [generateElements]
  | succ k ih => simp [generateElements, ih]

lemma generateSetItems_length_le (s : Schema) (targetSize : Nat) :
    ∀ (fuel : Nat) (items : List MockValue) (r : Rng),
      items.length ≤ targetSize → (fuel ≠ 0 → items.length < targetSize) →
      (generateSetItems s fuel targetSize items r).1.length ≤ targetSize := by
  intro fuel
  induction fuel with
  | zero => intro items r hle _; simpa [generateSetItems] using hle
  | succ k ih =>
    intro items r hle hlt
    have hstrict : items.length < targetSize := hlt (by omega)
    rcases hg : generateFromSchema s r with ⟨v, r1⟩
    have hadd := jsSetAdd_length_le items v
    rw [generateSetItems, hg]
    by_cases hc : targetSize ≤ (jsSetAdd items v).length
    · simp only [hc, if_true, if_pos]
      omega
    · simp only [hc, if_false, if_neg, not_false_iff]
      exact ih _ _ (by omega) (fun _ => by omega)

lemma lookup_cons_self {β : Type} (k : String) (v : β) (rest : List (String × β)) :
    ((k, v) :: rest).lookup k = some v := by
  simp [List.lookup]

lemma lookup_cons_ne {β : Type} (k k1 : String) (v : β) (rest : List (String × β))
    (h : k ≠ k1) : ((k1, v) :: rest).lookup k = rest.lookup k := by
  simp [List.lookup, beq_eq_false_iff_ne.mpr h]

lemma lookup_append_eq {β : Type} (xs ys : List (String × β)) (k : String) :
    (xs ++ ys).lookup k =
      match xs.lookup k with
      | some v => some v
      | none => ys.lookup k := by
  induction xs with
  | nil => simp [List.lookup]
  | cons hd tl ih =>
    rcases hd with ⟨k1, v1⟩
    by_cases hk : k = k1
    · subst hk
      simp [List.lookup]
    · rw [List.cons_append, lookup_cons_ne _ _ _ _ hk, lookup_cons_ne _ _ _ _ hk, ih]

lemma mem_of_lookup_eq_some {β : Type} (l : List (String × β)) (k : String) (v : β)
    (h : l.lookup k = some v) : (k, v) ∈ l := by
  induction l with
  | nil => simp [List.lookup] at h
  | cons hd tl ih =>
    rcases hd with ⟨k1, v1⟩
    by_cases hk : k = k1
    · subst hk
      rw [lookup_cons_self] at h
      simp only [Option.some.injEq] at h
      subst h
      exact List.mem_cons_self _ _
    · rw [lookup_cons_ne _ _ _ _ hk] at h
      exact List.mem_cons_of_mem _ (ih h)

lemma lookup_eq_none_of_not_mem {β : Type} (l : List (String × β)) (k : String)
    (h : k ∉ l.map Prod.fst) : l.lookup k = none := by
  induction l with
  | nil => rfl
  | cons hd tl ih =>
    rcases hd with ⟨k1, v1⟩
    simp only [List.map_cons, List.mem_cons, not_or] at h
    rw [lookup_cons_ne _ _ _ _ h.1]
    exact ih h.2

lemma lookup_map_override (a : List (String × MockValue)) (b : List (String × MockValue))
    (k : String) :
    (a.map (fun p => (p.1, (b.lookup p.1).getD p.2))).lookup k =
      (a.lookup k).map (fun v => (b.lookup k).getD v) := by
  induction a with
  | nil => simp [List.lookup]
  | cons hd tl ih =>
    rcases hd with ⟨k1, v1⟩
    by_cases hk : k = k1
    · subst hk
      simp only [List.map_cons]
      rw [lookup_cons_self, lookup_cons_self]
      simp
    · simp only [List.map_cons]
      rw [lookup_cons_ne _ _ _ _ hk, lookup_cons_ne _ _ _ _ hk, ih]

lemma lookup_filter_kept (a b : List (String × MockValue)) (k : String)
    (ha : a.lookup k = none) :
    (b.filter (fun p => (a.lookup p.1).isNone)).lookup k = b.lookup k := by
  induction b with
  | nil => rfl
  | cons hd tl ih =>
    rcases hd with ⟨k1, v1⟩
    by_cases hk : k = k1
    · subst hk
      have hkeep : (a.lookup k).isNone = true := by simp [ha]
      simp only [List.filter_cons, hkeep, if_true]
      rw [lookup_cons_self, lookup_cons_self]
    · rw [lookup_cons_ne _ _ _ _ hk]
      by_cases hkeep : (a.lookup k1).isNone = true
      · simp only [List.filter_cons, hkeep, if_true]
        rw [lookup_cons_ne _ _ _ _ hk]
        exact ih
      · simp only [Bool.not_eq_true] at hkeep
        simp only [List.filter_cons, hkeep, Bool.false_eq_true, if_false]
        exact ih

lemma lookup_jsMergeFields (a b : List (String × MockValue)) (k : String) :
    (jsMergeFields a b).lookup k =
      match b.lookup k with
      | some v => some v
      | none => a.lookup k := by
  unfold jsMergeFields
  rw [lookup_append_eq, lookup_map_override]
  rcases hak : a.lookup k with _ | av
  · simp only [Option.map_none']
    rw [lookup_filter_kept a b k hak]
    rcases b.lookup k with _ | bv <;> simp
  · simp only [Option.map_some']
    rcases b.lookup k with _ | bv <;> simp

lemma minmax_pair_le (a b : ℚ) :
    (if a > b then (⟨b, a⟩ : NormalizedBounds) else ⟨a, b⟩).min ≤
      (if a > b then (⟨b, a⟩ : NormalizedBounds) else ⟨a, b⟩).max := by
  split
  · next h => exact le_of_lt h
  · next h => exact not_lt.mp h

lemma getNormalizedBounds_min_le_max (minValue maxValue : Option JNum) (isFloat : Bool) :
    (getNormalizedBounds minValue maxValue isFloat).min ≤
      (getNormalizedBounds minValue maxValue isFloat).max := by
  unfold getNormalizedBounds
  dsimp only
  exact minmax_pair_le _ _

/-- C1: the dispatcher does not fail on a schema node whose kind is not among
the supported kinds — it silently substitutes `null` (the fallthrough at
`part_002` line 306), evaluated in particular at the kind name used by the
repository's own test of unsupported types. -/
theorem C1_unsupported_kind_returns_null :
    (∀ (typeName : String) (r : Rng),
      generateFromSchema (Schema.unsupported typeName) r = (MockValue.vnull, r)) ∧
    (generateFromSchema (Schema.unsupported "ZodCustomUnsupportedType") (Rng.mk 0)).1
      = MockValue.vnull := by
  constructor
  · intro typeName r
    simp [generateFromSchema]
  · simp [generateFromSchema]

/-- C3: `getNormalizedBounds` is a pure total function whose result always
satisfies `min ≤ max`, and it equals the spec's recipe: substitute the
default sentinel (float defaults when `isFloat`, integer defaults otherwise)
for a `null` or infinite bound, then swap when the substituted min exceeds
the substituted max. -/
theorem C3_getNormalizedBounds_pure_normalization :
    ∀ (minValue maxValue : Option JNum) (isFloat : Bool),
      (getNormalizedBounds minValue maxValue isFloat).min ≤
        (getNormalizedBounds minValue maxValue isFloat).max ∧
      getNormalizedBounds minValue maxValue isFloat =
        (let defaultMin := if isFloat then Constants.DEFAULT_FLOAT_MIN else Constants.DEFAULT_INT_MIN
         let defaultMax := if isFloat then Constants.DEFAULT_FLOAT_MAX else Constants.DEFAULT_INT_MAX
         let minBound := specSubstituteBound minValue defaultMin
         let maxBound := specSubstituteBound maxValue defaultMax
         if minBound > maxBound then ⟨maxBound, minBound⟩ else ⟨minBound, maxBound⟩) := by
  intro minValue maxValue isFloat
  refine ⟨getNormalizedBounds_min_le_max minValue maxValue isFloat, ?_⟩
  rcases minValue with _ | j1 <;> rcases maxValue with _ | j2
  · rfl
  · rcases j2 with q2 | _ | _ <;> rfl
  · rcases j1 with q1 | _ | _ <;> rfl
  · rcases j1 with q1 | _ | _ <;> rcases j2 with q2 | _ | _ <;> rfl

/-- C7: after every `generate` call the instance is exactly as before the
call: the active random-source reference is restored (the `finally` block)
and neither the bound schema nor any other instance field changes — on
normal return and on the validation-error path alike (the result component
is `Except.error` in that case, and the instance component is unchanged
either way). -/
theorem C7_faker_reference_restored :
    ∀ (inst : ZodMockInstance) (store : FakerStore) (overrides : Option MockOptions),
      (generate inst store overrides).2.1 = inst := by
  intro inst store overrides
  rcases inst with ⟨sch, ref⟩
  rfl

/-- C8: `seed` forwards a single integer as a one-element list, returns the
generator instance itself unchanged, and two independent instances bound to
the same schema — regardless of their references and of the prior states of
their random sources — produce identical output from `generate` after being
seeded with the same value. -/
theorem C8_seed_chainable_and_deterministic :
    ∀ (n : Int) (sch : Schema) (ref1 ref2 : Nat) (st1 st2 : FakerStore)
      (sv : Int ⊕ List Int),
      seed ⟨sch, ref1⟩ st1 (Sum.inl n) = seed ⟨sch, ref1⟩ st1 (Sum.inr [n]) ∧
      (seed ⟨sch, ref1⟩ st1 sv).1 = ⟨sch, ref1⟩ ∧
      (generate (seed ⟨sch, ref1⟩ st1 sv).1 (seed ⟨sch, ref1⟩ st1 sv).2 none).1 =
        (generate (seed ⟨sch, ref2⟩ st2 sv).1 (seed ⟨sch, ref2⟩ st2 sv).2 none).1 := by
  intro n sch ref1 ref2 st1 st2 sv
  refine ⟨rfl, rfl, ?_⟩
  simp [seed, generate, storeWrite, hasCustomOverrides]

/-- C10: the overrides branch dispatches on presence of the `overrides` key,
not on its value.  With the key present and the value `undefined`, the
generated draft is discarded and `undefined` is validated directly against
the schema — an error for every schema that rejects `undefined` — whereas an
empty options object or a faker-only injection validates the raw draft. -/
theorem C10_overrides_key_presence_dispatch :
    ∀ (inst : ZodMockInstance) (store : FakerStore) (fref : Nat),
      (generate inst store (some ⟨some MockValue.vundefined, none⟩)).1 =
        zodParse inst.schema MockValue.vundefined ∧
      (generate inst store (some ⟨none, none⟩)).1 = (generate inst store none).1 ∧
      (generate inst store (some ⟨none, some fref⟩)).1 =
        zodParse inst.schema (generateFromSchema inst.schema (store fref)).1 ∧
      (zodValidate inst.schema MockValue.vundefined = false →
        (generate inst store (some ⟨some MockValue.vundefined, none⟩)).1 =
          Except.error "ZodError") := by
  intro inst store fref
  refine ⟨rfl, rfl, rfl, ?_⟩
  intro h
  simp [generate, hasCustomOverrides, isPlainObject, zodParse, h]

/-- Witness for C10 at a concrete schema that rejects `undefined`. -/
theorem C10_overrides_key_presence_dispatch_witness :
    zodValidate Schema.bool MockValue.vundefined = false ∧
    (generate ⟨Schema.bool, 0⟩ (fun _ => Rng.mk 0) (some ⟨some MockValue.vundefined, none⟩)).1 =
      Except.error "ZodError" := by
  have hv : zodValidate Schema.bool MockValue.vundefined = false := by
    simp [zodValidate]
  exact ⟨hv, ((C10_overrides_key_presence_dispatch ⟨Schema.bool, 0⟩ (fun _ => Rng.mk 0) 0).2.2.2) hv⟩

/-- C5 (amended): with the `overrides` key present, the shallow merge is
validated only when BOTH the generated draft and the override value are
plain key-value objects; in every other case — including a plain-object
draft with a non-object override — the override value fully replaces the
draft and is validated alone. -/
theorem C5_override_merge_requires_both_plain :
    ∀ (inst : ZodMockInstance) (store : FakerStore) (ov : MockValue) (fref : Option Nat),
      (generate inst store (some ⟨some ov, fref⟩)).1 =
        (let draft := (generateFromSchema inst.schema (store (fref.getD inst.fakerRef))).1
         if isPlainObject ov && isPlainObject draft then
           zodParse inst.schema (jsSpreadMerge draft ov)
         else zodParse inst.schema ov) := by
  intro inst store ov fref
  rcases fref with _ | f <;> rfl

/-- Counterexample to C5 as stated: a plain-object draft merged with a
non-object override.  The draft is a plain object and itself validates, so
the claim predicts the validated shallow merge (which would succeed and keep
the draft's key), but the code discards the draft and validates the override
value `null` alone, which throws. -/
theorem C5_plain_draft_nonobject_override_counterexample :
    isPlainObject (generateFromSchema (Schema.obj [("a", Schema.bool)]) (Rng.mk 0)).1 = true ∧
    zodParse (Schema.obj [("a", Schema.bool)])
        (generateFromSchema (Schema.obj [("a", Schema.bool)]) (Rng.mk 0)).1 =
      Except.ok (MockValue.vobj [("a", MockValue.vbool true)]) ∧
    (generate ⟨Schema.obj [("a", Schema.bool)], 0⟩ (fun _ => Rng.mk 0)
        (some ⟨some MockValue.vnull, none⟩)).1 = Except.error "ZodError" := by
  refine ⟨?_, ?_, ?_⟩
  · simp [generateFromSchema, generateShape, fakerBoolean, rngNext, isPlainObject]
  · simp [generateFromSchema, generateShape, fakerBoolean, rngNext, zodParse, zodValidate,
      zodValidateShape, List.lookup]
  · simp [generate, hasCustomOverrides, isPlainObject, zodParse, zodValidate]

/-- C4 (amended): the float sampler is chosen iff the node carries a
float-family format tag or at least one of its bounds is NOT a declared,
finite, integral number — in particular an absent (`null`) bound or an
infinite bound triggers the float sampler, because `Number.isInteger`
rejects them; the integer sampler is used exactly when no float-family
format is present and both bounds are present, finite and integral. -/
theorem C4_float_intent_characterization :
    ∀ (minValue maxValue : Option JNum) (format : Option String) (r : Rng),
      (numberIsFloatIntent minValue maxValue format =
        ((match format with
          | some f => Constants.FLOAT_FORMATS.contains f
          | none => false) ||
         !(presentFiniteIntegerBound minValue && presentFiniteIntegerBound maxValue))) ∧
      (numberIsFloatIntent minValue maxValue format = true →
        generateNumberValue minValue maxValue format r =
          fakerNumberFloat r (getNormalizedBounds minValue maxValue true).min
            (getNormalizedBounds minValue maxValue true).max) ∧
      (numberIsFloatIntent minValue maxValue format = false →
        generateNumberValue minValue maxValue format r =
          fakerNumberInt r (getNormalizedBounds minValue maxValue false).min
            (getNormalizedBounds minValue maxValue false).max) := by
  intro minValue maxValue format r
  refine ⟨?_, ?_, ?_⟩
  · have hint : ∀ v : Option JNum, presentFiniteIntegerBound v = jsNumberIsInteger v := by
      intro v
      rcases v with _ | j
      · rfl
      · rcases j with q | _ | _ <;> rfl
    simp only [numberIsFloatIntent, List.any_cons, List.any_nil, Bool.or_false, hint,
      Bool.not_and]
  · intro h
    simp [generateNumberValue, h]
  · intro h
    simp [generateNumberValue, h]

/-- Witness for C4 at concrete inputs on both sides of the dispatch. -/
theorem C4_float_intent_characterization_witness :
    numberIsFloatIntent (some (JNum.fin 1)) (some (JNum.fin 10)) none = false ∧
    generateNumberValue (some (JNum.fin 1)) (some (JNum.fin 10)) none (Rng.mk 0) =
      fakerNumberInt (Rng.mk 0)
        (getNormalizedBounds (some (JNum.fin 1)) (some (JNum.fin 10)) false).min
        (getNormalizedBounds (some (JNum.fin 1)) (some (JNum.fin 10)) false).max ∧
    numberIsFloatIntent none none (some "float") = true ∧
    generateNumberValue none none (some "float") (Rng.mk 0) =
      fakerNumberFloat (Rng.mk 0)
        (getNormalizedBounds none none true).min
        (getNormalizedBounds none none true).max := by
  have h1 : numberIsFloatIntent (some (JNum.fin 1)) (some (JNum.fin 10)) none = false := by
    decide
  have h2 : numberIsFloatIntent none none (some "float") = true := by decide
  exact ⟨h1,
    (C4_float_intent_characterization (some (JNum.fin 1)) (some (JNum.fin 10)) none
      (Rng.mk 0)).2.2 h1,
    h2,
    (C4_float_intent_characterization none none (some "float") (Rng.mk 0)).2.1 h2⟩

/-- Counterexample to C4 as stated: a number node with no format tag and no
declared bounds uses the FLOAT sampler (because `Number.isInteger(null)` is
false), not the integer sampler, and at a concrete random state it produces
the non-integer 166/5 = 33.2. -/
theorem C4_no_bounds_uses_float_sampler :
    numberIsFloatIntent none none none = true ∧
    generateNumberValue none none none (Rng.mk 0) =
      fakerNumberFloat (Rng.mk 0) Constants.DEFAULT_FLOAT_MIN Constants.DEFAULT_FLOAT_MAX ∧
    (generateNumberValue none none none (Rng.mk 0)).1 = 166 / 5 ∧
    ((166 : ℚ) / 5).den ≠ 1 := by
  have hintent : numberIsFloatIntent none none none = true := by decide
  refine ⟨hintent, ?_, ?_, ?_⟩
  · simp only [generateNumberValue, hintent, if_true]
    rfl
  · simp only [generateNumberValue, hintent, if_true]
    show (fakerNumberFloat (Rng.mk 0)
      (getNormalizedBounds none none true).min (getNormalizedBounds none none true).max).1
      = 166 / 5
    have hb : getNormalizedBounds none none true = ⟨0, 100⟩ := by
      unfold getNormalizedBounds
      norm_num [Constants.DEFAULT_FLOAT_MIN, Constants.DEFAULT_FLOAT_MAX]
    rw [hb]
    unfold fakerNumberFloat rngNext
    norm_num
  · rw [Ne, Rat.den_eq_one_iff]
    norm_num

lemma getNormalizedBounds_fin_fin (a b : ℚ) (isFloat : Bool) (h : a ≤ b) :
    getNormalizedBounds (some (JNum.fin a)) (some (JNum.fin b)) isFloat = ⟨a, b⟩ := by
  unfold getNormalizedBounds
  dsimp only
  rw [if_neg (not_lt.mpr h)]

lemma generateNumberValue_mem (a b : ℚ) (format : Option String) (r : Rng) (h : a ≤ b) :
    a ≤ (generateNumberValue (some (JNum.fin a)) (some (JNum.fin b)) format r).1 ∧
    (generateNumberValue (some (JNum.fin a)) (some (JNum.fin b)) format r).1 ≤ b := by
  unfold generateNumberValue
  dsimp only
  rw [getNormalizedBounds_fin_fin _ _ _ h]
  split
  · exact fakerNumberFloat_mem r a b h
  · exact fakerNumberInt_mem r a b h

lemma generateStringValue_default_length (mn mx : Nat) (pat : Option String) (r : Rng)
    (h : mn ≤ mx) :
    mn ≤ (generateStringValue (some mn) (some mx) none pat r).1.length ∧
    (generateStringValue (some mn) (some mx) none pat r).1.length ≤ mx := by
  unfold generateStringValue
  dsimp only [Option.getD_some]
  rcases hn : natInRange r mn mx with ⟨len, r1⟩
  have hmem := natInRange_mem r mn mx h
  rw [hn] at hmem
  simp only [fakerStringAlpha_length]
  simpa using hmem

/-- C2 (amended): for values generated without overrides, a format-free
string node's length, a number node's value (with declared finite bounds)
and an array node's length always lie within the declared `[min, max]`
(taken coherent, `min ≤ max`); a set node's cardinality never exceeds the
declared maximum but is not guaranteed to reach the declared minimum (see
the counterexample), and format-tagged strings bypass the length bounds
entirely. -/
theorem C2_declared_bounds_respected :
    (∀ (mn mx : Nat) (pat : Option String) (r : Rng), mn ≤ mx →
      ∃ s, (generateFromSchema (Schema.str (some mn) (some mx) none pat) r).1 =
          MockValue.vstr s ∧ mn ≤ s.length ∧ s.length ≤ mx) ∧
    (∀ (a b : ℚ) (format : Option String) (r : Rng), a ≤ b →
      ∃ q, (generateFromSchema (Schema.num (some (JNum.fin a)) (some (JNum.fin b)) format) r).1 =
          MockValue.vnum q ∧ a ≤ q ∧ q ≤ b) ∧
    (∀ (mn mx : Nat) (elem : Schema) (r : Rng), mn ≤ mx →
      ∃ xs, (generateFromSchema (Schema.arr (some mn) (some mx) elem) r).1 =
          MockValue.varr xs ∧ mn ≤ xs.length ∧ xs.length ≤ mx) ∧
    (∀ (mn mx : Nat) (elem : Schema) (r : Rng), mn ≤ mx →
      ∃ xs, (generateFromSchema (Schema.set (some mn) (some mx) elem) r).1 =
          MockValue.vset xs ∧ xs.length ≤ mx) := by
  refine ⟨?_, ?_, ?_, ?_⟩
  · intro mn mx pat r h
    rcases hg : generateStringValue (some mn) (some mx) none pat r with ⟨s, r1⟩
    have hlen := generateStringValue_default_length mn mx pat r h
    rw [hg] at hlen
    refine ⟨s, ?_, hlen.1, hlen.2⟩
    rw [generateFromSchema, hg]
  · intro a b format r h
    rcases hg : generateNumberValue (some (JNum.fin a)) (some (JNum.fin b)) format r with ⟨q, r1⟩
    have hmem := generateNumberValue_mem a b format r h
    rw [hg] at hmem
    refine ⟨q, ?_, hmem.1, hmem.2⟩
    rw [generateFromSchema, hg]
  · intro mn mx elem r h
    rcases hn : natInRange r mn mx with ⟨len, r1⟩
    have hmem := natInRange_mem r mn mx h
    rw [hn] at hmem
    rcases he : generateElements elem len r1 with ⟨xs, r2⟩
    have hlen := generateElements_length elem len r1
    rw [he] at hlen
    refine ⟨xs, ?_, ?_, ?_⟩
    · rw [generateFromSchema]
      simp only [Option.getD_some]
      rw [hn, he]
    · simp only [hlen]
      exact hmem.1
    · simp only [hlen]
      exact hmem.2
  · intro mn mx elem r h
    rcases hn : natInRange r mn mx with ⟨target, r1⟩
    have hmem := natInRange_mem r mn mx h
    rw [hn] at hmem
    rcases hs : generateSetItems elem (target * 3) target [] r1 with ⟨items, r2⟩
    have hle : items.length ≤ target := by
      have := generateSetItems_length_le elem target (target * 3) [] r1
        (by simp) (fun hf => by simpa using Nat.pos_of_ne_zero (by omega))
      rw [hs] at this
      exact this
    refine ⟨items, ?_, le_trans hle hmem.2⟩
    rw [generateFromSchema]
    simp only [Option.getD_some]
    rw [hn, hs]

/-- Counterexample to C2 as stated: a set node declared `min_size = max_size
= 2` over a literal element generates a set of cardinality 1 (every
generated element collides), below the declared minimum; and a string node
with declared bounds `[50, 60]` but an email format tag generates a
19-character string, below the declared minimum, because the format
generators ignore the length bounds. -/
theorem C2_set_cardinality_below_min_counterexample :
    (generateFromSchema (Schema.set (some 2) (some 2) (Schema.lit (Prim.pstr "x"))) (Rng.mk 0)).1 =
      MockValue.vset [MockValue.vstr "x"] ∧
    ¬ (2 : Nat) ≤ [MockValue.vstr "x"].length ∧
    (generateFromSchema (Schema.str (some 50) (some 60) (some "email") none) (Rng.mk 0)).1 =
      MockValue.vstr "user223@example.com" ∧
    ¬ (50 : Nat) ≤ "user223@example.com".length := by
  refine ⟨?_, by decide, ?_, by decide⟩
  · simp [generateFromSchema, generateSetItems, natInRange, rngNext, jsSetAdd,
      MockValue.primEq, Prim.toMockValue]
  · simp [generateFromSchema, generateStringValue, fakerInternetEmail, rngNext,
      Constants.FORMAT_EMAIL]
    rfl

/-- Witness for C2 at concrete inputs for all four parts. -/
theorem C2_declared_bounds_respected_witness :
    ((2 : Nat) ≤ 5 ∧
      ∃ s, (generateFromSchema (Schema.str (some 2) (some 5) none none) (Rng.mk 0)).1 =
          MockValue.vstr s ∧ 2 ≤ s.length ∧ s.length ≤ 5) ∧
    ((18 : ℚ) ≤ 99 ∧
      ∃ q, (generateFromSchema
            (Schema.num (some (JNum.fin 18)) (some (JNum.fin 99)) none) (Rng.mk 0)).1 =
          MockValue.vnum q ∧ 18 ≤ q ∧ q ≤ 99) ∧
    ((1 : Nat) ≤ 3 ∧
      ∃ xs, (generateFromSchema (Schema.arr (some 1) (some 3) Schema.bool) (Rng.mk 0)).1 =
          MockValue.varr xs ∧ 1 ≤ xs.length ∧ xs.length ≤ 3) ∧
    ((1 : Nat) ≤ 4 ∧
      ∃ xs, (generateFromSchema (Schema.set (some 1) (some 4) Schema.bool) (Rng.mk 0)).1 =
          MockValue.vset xs ∧ xs.length ≤ 4) := by
  refine ⟨⟨by decide, C2_declared_bounds_respected.1 2 5 none (Rng.mk 0) (by decide)⟩,
    ⟨by norm_num, C2_declared_bounds_respected.2.1 18 99 none (Rng.mk 0) (by norm_num)⟩,
    ⟨by decide, C2_declared_bounds_respected.2.2.1 1 3 Schema.bool (Rng.mk 0) (by decide)⟩,
    ⟨by decide, C2_declared_bounds_respected.2.2.2 1 4 Schema.bool (Rng.mk 0) (by decide)⟩⟩

/-- C9: set generation draws its target size from the declared
`min_size`/`max_size` (defaulting to 1/5 when absent), runs the insertion
loop with an iteration budget of 3x the target (the loop's fuel, stopping
early once the target cardinality is reached), never returns more than the
target number of elements, and can return fewer when generated elements
collide — as at the concrete input in the final conjunct, where a
three-element target over a literal element yields a singleton. -/
theorem C9_set_generation_policy :
    (∀ (elem : Schema) (r : Rng),
      generateFromSchema (Schema.set none none elem) r =
        generateFromSchema
          (Schema.set (some Constants.DEFAULT_SET_MIN_SIZE)
            (some Constants.DEFAULT_SET_MAX_SIZE) elem) r) ∧
    (∀ (mn mx : Nat) (elem : Schema) (r : Rng), mn ≤ mx →
      mn ≤ (natInRange r mn mx).1 ∧ (natInRange r mn mx).1 ≤ mx ∧
      ∃ xs, (generateFromSchema (Schema.set (some mn) (some mx) elem) r).1 =
          MockValue.vset xs ∧
        xs = (generateSetItems elem ((natInRange r mn mx).1 * 3) (natInRange r mn mx).1 []
          (natInRange r mn mx).2).1 ∧
        xs.length ≤ (natInRange r mn mx).1) ∧
    ((generateFromSchema (Schema.set (some 3) (some 3) (Schema.lit (Prim.pbool true)))
        (Rng.mk 0)).1 = MockValue.vset [MockValue.vbool true]) := by
  refine ⟨?_, ?_, ?_⟩
  · intro elem r
    rw [generateFromSchema, generateFromSchema]
    rfl
  · intro mn mx elem r h
    have hmem := natInRange_mem r mn mx h
    rcases hn : natInRange r mn mx with ⟨target, r1⟩
    rw [hn] at hmem
    rcases hs : generateSetItems elem (target * 3) target [] r1 with ⟨items, r2⟩
    have hle : items.length ≤ target := by
      have := generateSetItems_length_le elem target (target * 3) [] r1
        (by simp) (fun hf => by simpa using Nat.pos_of_ne_zero (by omega))
      rw [hs] at this
      exact this
    refine ⟨hmem.1, hmem.2, items, ?_, ?_, hle⟩
    · rw [generateFromSchema]
      simp only [Option.getD_some]
      rw [hn, hs]
    · rfl
  · simp [generateFromSchema, generateSetItems, natInRange, rngNext, jsSetAdd,
      MockValue.primEq, Prim.toMockValue]

/-- Witness for C9's bounded-loop conjunct at a concrete input. -/
theorem C9_set_generation_policy_witness :
    (2 : Nat) ≤ 4 ∧
    (2 ≤ (natInRange (Rng.mk 0) 2 4).1 ∧ (natInRange (Rng.mk 0) 2 4).1 ≤ 4 ∧
      ∃ xs, (generateFromSchema (Schema.set (some 2) (some 4) Schema.bool) (Rng.mk 0)).1 =
          MockValue.vset xs ∧
        xs = (generateSetItems Schema.bool ((natInRange (Rng.mk 0) 2 4).1 * 3)
          (natInRange (Rng.mk 0) 2 4).1 [] (natInRange (Rng.mk 0) 2 4).2).1 ∧
        xs.length ≤ (natInRange (Rng.mk 0) 2 4).1) := by
  exact ⟨by decide,
    C9_set_generation_policy.2.1 2 4 Schema.bool (Rng.mk 0) (by decide)⟩

lemma generateStringValue_default_length_opt (mn mx : Option Nat) (pat : Option String)
    (r : Rng)
    (h : mn.getD Constants.DEFAULT_STRING_MIN_LENGTH ≤ mx.getD Constants.DEFAULT_STRING_MAX_LENGTH) :
    mn.getD Constants.DEFAULT_STRING_MIN_LENGTH ≤
      (generateStringValue mn mx none pat r).1.length ∧
    (generateStringValue mn mx none pat r).1.length ≤
      mx.getD Constants.DEFAULT_STRING_MAX_LENGTH := by
  unfold generateStringValue
  dsimp only
  rcases hn : natInRange r (mn.getD Constants.DEFAULT_STRING_MIN_LENGTH)
      (mx.getD Constants.DEFAULT_STRING_MAX_LENGTH) with ⟨len, r1⟩
  have hmem := natInRange_mem r (mn.getD Constants.DEFAULT_STRING_MIN_LENGTH)
    (mx.getD Constants.DEFAULT_STRING_MAX_LENGTH) h
  rw [hn] at hmem
  simp only [fakerStringAlpha_length]
  simpa using hmem

lemma sizeOf_lt_of_arr (mn mx : Option Nat) (elem : Schema) :
    sizeOf elem < sizeOf (Schema.arr mn mx elem) := by
  simp only [Schema.arr.sizeOf_spec]
  omega

lemma generation_sound :
    ∀ (n : Nat) (s : Schema), sizeOf s < n → SoundSchema s = true →
      ∀ r : Rng, zodValidate s (generateFromSchema s r).1 = true := by
  intro n
  induction n with
  | zero => intro s hs; exact absurd hs (Nat.not_lt_zero _)
  | succ n ih =>
    intro s hs hsound r
    cases s with
    | withMeta format inner => simp [SoundSchema] at hsound
    | str mn mx fmt pat =>
      simp only [SoundSchema, Bool.and_eq_true, Option.isNone_iff_eq_none,
        decide_eq_true_eq] at hsound
      rcases hsound with ⟨hfmt, hb⟩
      subst hfmt
      rcases hgs : generateStringValue mn mx none pat r with ⟨s, r1⟩
      have hlen := generateStringValue_default_length_opt mn mx pat r hb
      rw [hgs] at hlen
      rw [generateFromSchema, hgs]
      dsimp only
      rcases mn with _ | m1 <;> rcases mx with _ | m2 <;>
        simp only [Option.getD_some, Option.getD_none] at hlen <;>
        simp [zodValidate, hlen.1, hlen.2]
    | num mn mx fmt =>
      simp only [SoundSchema, Bool.and_eq_true, Option.isNone_iff_eq_none] at hsound
      rcases hsound with ⟨hfmt, hb⟩
      subst hfmt
      rcases mn with _ | j1
      · rcases mx with _ | j2
        · rcases hgn : generateNumberValue none none none r with ⟨q, r1⟩
          rw [generateFromSchema, hgn]
          simp [zodValidate, INT_FORMATS]
        · exfalso
          rcases j2 with q2 | _ | _ <;> simp at hb
      · rcases j1 with q1 | _ | _
        · rcases mx with _ | j2
          · exfalso; simp at hb
          · rcases j2 with q2 | _ | _
            · simp only [decide_eq_true_eq] at hb
              rcases hgn : generateNumberValue (some (JNum.fin q1)) (some (JNum.fin q2)) none r
                with ⟨q, r1⟩
              have hmem := generateNumberValue_mem q1 q2 none r hb
              rw [hgn] at hmem
              rw [generateFromSchema, hgn]
              simp [zodValidate, JNum.leQ, JNum.geQ, INT_FORMATS, hmem.1, hmem.2]
            · exfalso; simp at hb
            · exfalso; simp at hb
        · exfalso
          rcases mx with _ | j2
          · simp at hb
          · rcases j2 with q2 | _ | _ <;> simp at hb
        · exfalso
          rcases mx with _ | j2
          · simp at hb
          · rcases j2 with q2 | _ | _ <;> simp at hb
    | bool =>
      rcases hgb : fakerBoolean r with ⟨b, r1⟩
      rw [generateFromSchema, hgb]
      simp [zodValidate]
    | lit p =>
      rw [generateFromSchema]
      cases p <;> simp [zodValidate, Prim.toMockValue, MockValue.primEq]
    | arr mn mx elem =>
      simp only [SoundSchema, Bool.and_eq_true, decide_eq_true_eq] at hsound
      rcases hsound with ⟨hb, hselem⟩
      have hslt : sizeOf elem < n := by
        have := sizeOf_lt_of_arr mn mx elem
        omega
      have helems : ∀ (k : Nat) (r1 : Rng),
          zodValidateElems elem (generateElements elem k r1).1 = true := by
        intro k
        induction k with
        | zero => intro r1; simp [generateElements, zodValidateElems]
        | succ k ihk =>
          intro r1
          rcases hg1 : generateFromSchema elem r1 with ⟨v, r2⟩
          rcases hg2 : generateElements elem k r2 with ⟨vs, r3⟩
          rw [generateElements, hg1]
          dsimp only
          rw [hg2]
          dsimp only
          rw [zodValidateElems]
          have hv := ih elem hslt hselem r1
          rw [hg1] at hv
          have hvs := ihk r2
          rw [hg2] at hvs
          simp [hv, hvs]
      rcases hn : natInRange r (mn.getD Constants.DEFAULT_ARRAY_MIN_LENGTH)
          (mx.getD Constants.DEFAULT_ARRAY_MAX_LENGTH) with ⟨len, r1⟩
      have hmem := natInRange_mem r (mn.getD Constants.DEFAULT_ARRAY_MIN_LENGTH)
        (mx.getD Constants.DEFAULT_ARRAY_MAX_LENGTH) hb
      rw [hn] at hmem
      rcases he : generateElements elem len r1 with ⟨xs, r2⟩
      have hlen : xs.length = len := by
        have := generateElements_length elem len r1
        rw [he] at this
        exact this
      have hexs : zodValidateElems elem xs = true := by
        have := helems len r1
        rw [he] at this
        exact this
      rw [generateFromSchema, hn]
      dsimp only
      rw [he]
      dsimp only
      rcases mn with _ | m1 <;> rcases mx with _ | m2 <;>
        simp only [Option.getD_some, Option.getD_none] at hmem <;>
        simp [zodValidate, hlen, hexs, hmem.1, hmem.2]
    | obj shape => simp [SoundSchema] at hsound
    | set mn mx elem => simp [SoundSchema] at hsound
    | unsupported typeName => simp [SoundSchema] at hsound

lemma generateShape_lookup_sound (shape : List (String × Schema)) :
    ∀ (r : Rng), shape.all (fun p => SoundSchema p.2) = true →
      ∀ (key : String) (sch : Schema), shape.lookup key = some sch →
        ∃ v, (generateShape shape r).1.lookup key = some v ∧ zodValidate sch v = true := by
  induction shape with
  | nil =>
    intro r _ key sch hlk
    simp [List.lookup] at hlk
  | cons hd rest ihs =>
    rcases hd with ⟨k0, s0⟩
    intro r hall key sch hlk
    simp only [List.all_cons, Bool.and_eq_true] at hall
    rcases hg1 : generateFromSchema s0 r with ⟨v0, r1⟩
    rcases hg2 : generateShape rest r1 with ⟨fs, r2⟩
    rw [generateShape, hg1]
    dsimp only
    rw [hg2]
    dsimp only
    by_cases hk : key = k0
    · subst hk
      rw [lookup_cons_self] at hlk
      injection hlk with hlk
      subst hlk
      refine ⟨v0, lookup_cons_self _ _ _, ?_⟩
      have := generation_sound (sizeOf s0 + 1) s0 (Nat.lt_succ_self _) hall.1 r
      rw [hg1] at this
      exact this
    · rw [lookup_cons_ne _ _ _ _ hk] at hlk
      rw [lookup_cons_ne _ _ _ _ hk]
      have := ihs r1 hall.2 key sch hlk
      rw [hg2] at this
      exact this

lemma zodValidateShape_of_forall (shape : List (String × Schema))
    (fields : List (String × MockValue)) (hnodup : (shape.map Prod.fst).Nodup)
    (h : ∀ (key : String) (sch : Schema), shape.lookup key = some sch →
      ∃ v, fields.lookup key = some v ∧ zodValidate sch v = true) :
    zodValidateShape shape fields = true := by
  induction shape with
  | nil => simp [zodValidateShape]
  | cons hd rest ihs =>
    rcases hd with ⟨k0, s0⟩
    simp only [List.map_cons, List.nodup_cons] at hnodup
    rcases h k0 s0 (lookup_cons_self _ _ _) with ⟨v, hv, hval⟩
    rw [zodValidateShape, hv]
    simp only [hval, Bool.true_and]
    refine ihs hnodup.2 ?_
    intro key sch hlk
    have hkmem : key ∈ rest.map Prod.fst := by
      have := mem_of_lookup_eq_some rest key sch hlk
      exact List.mem_map_of_mem Prod.fst this
    have hk : key ≠ k0 := by
      intro heq
      subst heq
      exact hnodup.1 hkmem
    exact h key sch (by rw [lookup_cons_ne _ _ _ _ hk]; exact hlk)

/-- C6 (amended): for an object-root schema whose fields all lie in the
sound generation fragment and a shallow override whose keys are declared
fields and whose values validate, `generate` succeeds and returns an object
in which every overridden field carries exactly the override's value and
every non-overridden field carries an independently generated value that
validates against its field node.  The restriction to the sound fragment is
forced: outside it generation itself can produce an invalid draft and
`generate` throws despite a valid override (see the counterexample). -/
theorem C6_override_round_trip (shape : List (String × Schema))
    (X : List (String × MockValue)) (ref : Nat) (store : FakerStore)
    (hsound : shape.all (fun p => SoundSchema p.2) = true)
    (hnodup : (shape.map Prod.fst).Nodup)
    (hX : X.all (fun p => overrideEntryOk shape p) = true) :
    ∃ fields,
      (generate ⟨Schema.obj shape, ref⟩ store (some ⟨some (MockValue.vobj X), none⟩)).1 =
        Except.ok (MockValue.vobj fields) ∧
      (∀ (key : String) (v : MockValue), X.lookup key = some v →
        fields.lookup key = some v) ∧
      (∀ (key : String) (sch : Schema), shape.lookup key = some sch →
        X.lookup key = none →
        ∃ gv, fields.lookup key = some gv ∧ zodValidate sch gv = true) := by
  rcases hgs : generateShape shape (store ref) with ⟨D, rD⟩
  have hg : generateFromSchema (Schema.obj shape) (store ref) = (MockValue.vobj D, rD) := by
    rw [generateFromSchema, hgs]
  have hDlookup : ∀ (key : String) (sch : Schema), shape.lookup key = some sch →
      ∃ v, D.lookup key = some v ∧ zodValidate sch v = true := by
    intro key sch hlk
    have := generateShape_lookup_sound shape (store ref) hsound key sch hlk
    rw [hgs] at this
    exact this
  have hMlookup : ∀ (key : String) (sch : Schema), shape.lookup key = some sch →
      ∃ v, (jsMergeFields D X).lookup key = some v ∧ zodValidate sch v = true := by
    intro key sch hlk
    rcases hxk : X.lookup key with _ | xv
    · rcases hDlookup key sch hlk with ⟨v, hv, hval⟩
      refine ⟨v, ?_, hval⟩
      rw [lookup_jsMergeFields, hxk, hv]
    · refine ⟨xv, ?_, ?_⟩
      · rw [lookup_jsMergeFields, hxk]
      · have hmem := mem_of_lookup_eq_some X key xv hxk
        have hentry := List.all_eq_true.mp hX _ hmem
        simpa only [overrideEntryOk, hlk] using hentry
  have hvalid : zodValidate (Schema.obj shape) (MockValue.vobj (jsMergeFields D X)) = true := by
    rw [zodValidate]
    exact zodValidateShape_of_forall shape (jsMergeFields D X) hnodup hMlookup
  refine ⟨jsMergeFields D X, ?_, ?_, ?_⟩
  · simp only [generate, hasCustomOverrides, Option.isSome_some, Bool.not_true,
      Bool.false_eq_true, if_false, Option.getD_some, isPlainObject, hg, jsSpreadMerge,
      Bool.and_self, if_true]
    rw [zodParse, if_pos hvalid]
  · intro key v hxk
    rw [lookup_jsMergeFields, hxk]
  · intro key sch hlk hxk
    rcases hDlookup key sch hlk with ⟨v, hv, hval⟩
    refine ⟨v, ?_, hval⟩
    rw [lookup_jsMergeFields, hxk, hv]

/-- Witness for C6 at the spec's example shape `{age: number[18,99], active:
boolean}` with the override `{age: 30}`. -/
theorem C6_override_round_trip_witness :
    ∃ fields,
      (generate ⟨Schema.obj [("active", Schema.bool),
          ("age", Schema.num (some (JNum.fin 18)) (some (JNum.fin 99)) none)], 0⟩
        (fun _ => Rng.mk 0)
        (some ⟨some (MockValue.vobj [("age", MockValue.vnum 30)]), none⟩)).1 =
        Except.ok (MockValue.vobj fields) ∧
      (∀ (key : String) (v : MockValue),
        [("age", MockValue.vnum 30)].lookup key = some v → fields.lookup key = some v) ∧
      (∀ (key : String) (sch : Schema),
        [("active", Schema.bool),
          ("age", Schema.num (some (JNum.fin 18)) (some (JNum.fin 99)) none)].lookup key =
            some sch →
        [("age", MockValue.vnum 30)].lookup key = none →
        ∃ gv, fields.lookup key = some gv ∧ zodValidate sch gv = true) := by
  refine C6_override_round_trip
    [("active", Schema.bool), ("age", Schema.num (some (JNum.fin 18)) (some (JNum.fin 99)) none)]
    [("age", MockValue.vnum 30)] 0 (fun _ => Rng.mk 0) ?_ ?_ ?_
  · simp [SoundSchema]
    norm_num
  · decide
  · simp [overrideEntryOk, List.lookup, zodValidate, JNum.leQ, JNum.geQ, INT_FORMATS]
    norm_num

lemma generate_override_none_faker (inst : ZodMockInstance) (store : FakerStore)
    (ov : MockValue) :
    (generate inst store (some ⟨some ov, none⟩)).1 =
      (if isPlainObject ov &&
          isPlainObject (generateFromSchema inst.schema (store inst.fakerRef)).1 then
        zodParse inst.schema
          (jsSpreadMerge (generateFromSchema inst.schema (store inst.fakerRef)).1 ov)
      else zodParse inst.schema ov) := rfl

lemma litx_gen_eval : generateFromSchema (Schema.lit (Prim.pstr "x")) (Rng.mk 1196435762) =
    (MockValue.vstr "x", Rng.mk 1196435762) := by
  rw [generateFromSchema]
  rfl

lemma setLit_loop_stuck : ∀ fuel : Nat,
    generateSetItems (Schema.lit (Prim.pstr "x")) fuel 2 [MockValue.vstr "x"]
      (Rng.mk 1196435762) = ([MockValue.vstr "x"], Rng.mk 1196435762) := by
  intro fuel
  induction fuel with
  | zero => rw [generateSetItems]
  | succ k ihk =>
    rw [generateSetItems, litx_gen_eval]
    dsimp only
    rw [show jsSetAdd [MockValue.vstr "x"] (MockValue.vstr "x") = [MockValue.vstr "x"] from by
      simp [jsSetAdd, MockValue.primEq]]
    norm_num
    exact ihk

lemma setLit_loop_eval : generateSetItems (Schema.lit (Prim.pstr "x")) 6 2 [] (Rng.mk 1196435762) =
    ([MockValue.vstr "x"], Rng.mk 1196435762) := by
  rw [generateSetItems, litx_gen_eval]
  dsimp only
  rw [show jsSetAdd [] (MockValue.vstr "x") = [MockValue.vstr "x"] from by simp [jsSetAdd]]
  norm_num
  exact setLit_loop_stuck 5

lemma natInRange_2_2_eval : natInRange (Rng.mk 1013904223) 2 2 = (2, Rng.mk 1196435762) := by
  norm_num [natInRange, rngNext]

lemma setLit_2_2_eval :
    generateFromSchema (Schema.set (some 2) (some 2) (Schema.lit (Prim.pstr "x")))
      (Rng.mk 1013904223) =
    (MockValue.vset [MockValue.vstr "x"], Rng.mk 1196435762) := by
  rw [generateFromSchema]
  simp only [Option.getD_some]
  rw [natInRange_2_2_eval]
  norm_num
  rw [setLit_loop_eval]
  exact ⟨rfl, rfl⟩

lemma bool_gen_eval : generateFromSchema Schema.bool (Rng.mk 0) =
    (MockValue.vbool true, Rng.mk 1013904223) := by
  rw [generateFromSchema]
  norm_num [fakerBoolean, rngNext]

lemma obj_draft_eval : generateFromSchema (Schema.obj [("active", Schema.bool),
      ("tags", Schema.set (some 2) (some 2) (Schema.lit (Prim.pstr "x")))]) (Rng.mk 0) =
    (MockValue.vobj [("active", MockValue.vbool true),
      ("tags", MockValue.vset [MockValue.vstr "x"])], Rng.mk 1196435762) := by
  have hshape : generateShape [("active", Schema.bool),
        ("tags", Schema.set (some 2) (some 2) (Schema.lit (Prim.pstr "x")))] (Rng.mk 0) =
      ([("active", MockValue.vbool true), ("tags", MockValue.vset [MockValue.vstr "x"])],
        Rng.mk 1196435762) := by
    rw [generateShape, bool_gen_eval]
    dsimp only
    rw [generateShape, setLit_2_2_eval]
    dsimp only
    rw [generateShape]
  rw [generateFromSchema, hshape]

lemma merged_draft_invalid : zodValidate (Schema.obj [("active", Schema.bool),
      ("tags", Schema.set (some 2) (some 2) (Schema.lit (Prim.pstr "x")))])
    (MockValue.vobj [("active", MockValue.vbool false),
      ("tags", MockValue.vset [MockValue.vstr "x"])]) = false := by
  rw [zodValidate]
  rw [zodValidateShape]
  simp [zodValidate, zodValidateShape, zodValidateElems, List.lookup, MockValue.primEq]

/-- Counterexample to C6 as stated: an object-root schema with a set field
declared `min_size = max_size = 2` over a literal element.  The shallow
override `{active: false}` is perfectly valid for its field, yet `generate`
throws — the independently generated set field collides down to cardinality
1 and fails validation — so no output object with the claimed per-field
properties exists. -/
theorem C6_valid_override_generate_throws_counterexample :
    zodValidate Schema.bool (MockValue.vbool false) = true ∧
    (generate ⟨Schema.obj [("active", Schema.bool),
        ("tags", Schema.set (some 2) (some 2) (Schema.lit (Prim.pstr "x")))], 0⟩
      (fun _ => Rng.mk 0)
      (some ⟨some (MockValue.vobj [("active", MockValue.vbool false)]), none⟩)).1 =
      Except.error "ZodError" := by
  have hmerge : jsMergeFields
        [("active", MockValue.vbool true), ("tags", MockValue.vset [MockValue.vstr "x"])]
        [("active", MockValue.vbool false)] =
      [("active", MockValue.vbool false), ("tags", MockValue.vset [MockValue.vstr "x"])] := by
    simp [jsMergeFields, List.lookup]
  refine ⟨by simp [zodValidate], ?_⟩
  rw [generate_override_none_faker]
  dsimp only
  rw [obj_draft_eval]
  dsimp only [isPlainObject, Bool.and_self, if_true, jsSpreadMerge]
  rw [hmerge]
  unfold zodParse
  rw [merged_draft_invalid]
  rfl
